import Mathlib

/-!
Verification of the passport-authentication core of `src/smc-hub/auth.ts`
(CoCalc hub). The TypeScript code is embedded shallowly:

* Strings stay strings; JavaScript truthiness of `string | undefined` values
  is `truthyS` (both `undefined` and the empty string are falsy).
* The HMAC primitive `crypto.createHmac(alg, salt).update(h).digest("hex")`
  is an abstract total function parameter `Hmac` (algorithm, salt, data).
* The database (`this.database`) is an oracle `Store` of pure functions:
  each `callback2` call reads its result from the oracle.  All datastore
  calls are modelled as succeeding, except `create_passport`, whose result
  is an explicit `Except` so that the datastore race on link creation
  (rejection with AlreadyExists) can be analysed.
* Datastore writes and other side effects are collected in a `List Effect`
  trace, in execution order; a thrown JS `Error` is `Except.error` with the
  message string.  Effects performed before a throw are kept in the trace,
  matching the fact that the real writes are not rolled back.
* The mutable `locals` bag threaded through the login pipeline is the
  `Locals` record, updated functionally step by step in the exact order of
  `passport_login`.
-/

/-- JS truthiness for `string | undefined` values: `undefined` and `""` are
falsy, every other string is truthy. -/
def truthyS : Option String → Bool
  | none => false
  | some s => !(s == "")

/-- JS template-literal rendering of a `string | undefined` value
(`undefined` prints as the word `undefined`). -/
def jsShow : Option String → String
  | none => "undefined"
  | some s => s

/-- JS `x || d` for `x : string | undefined` with a string default
(both `undefined` and `""` fall back to `d`). -/
def jsOr (x : Option String) (d : String) : String :=
  match x with
  | none => d
  | some s => if s = "" then d else s

/-- JS `String.prototype.split` with a one-character separator. -/
def jsSplit (sep : Char) (s : String) : List String :=
  (s.toList.splitOn sep).map (fun cs => String.mk cs)

/-- JS `Array.prototype.join` with a one-character separator, on an array of
strings. -/
def jsJoin (sep : Char) (parts : List String) : String :=
  String.mk (List.intercalate [sep] (parts.map String.toList))

/-- Abstract keyed-hash primitive: algorithm, salt and data to hex digest.
Stands for `crypto.createHmac(algorithm, salt).update(data).digest("hex")`
in `generate_hash` (src/smc-hub/auth.ts line 126). -/
abbrev Hmac := String → String → String → String

/-- `hashLoopN step n h` applies `step` to `h` exactly `n` times: round 1
hashes the raw input, round `i` hashes the output of round `i - 1`. -/
def hashLoopN (step : String → String) : Nat → String → String
  | 0, h => h
  | n + 1, h => hashLoopN step n (step h)

/-- Literal embedding of the ascending arm of the decompiled-CoffeeScript
loop in `generate_hash` (auth.ts lines 121 to 127):
`for (i = 1; i <= end; i++) hash = step(hash)`. -/
def hashLoopAsc (step : String → String) (i endI : Int) (h : String) : String :=
  if i ≤ endI then hashLoopAsc step (i + 1) endI (step h) else h
termination_by (endI + 1 - i).toNat
decreasing_by simp_wf; omega

/-- Literal embedding of the descending arm of the same loop
(`asc` is false, so the guard is `i >= end` and the update is `i--`). -/
def hashLoopDesc (step : String → String) (i endI : Int) (h : String) : String :=
  if i ≥ endI then hashLoopDesc step (i - 1) endI (step h) else h
termination_by (i + 1 - endI).toNat
decreasing_by simp_wf; omega

/-- The full loop of `generate_hash` as written in the source: the direction
is fixed once by `asc = 1 <= end`, then the matching arm runs from `i = 1`. -/
def jsHashLoop (step : String → String) (endI : Int) (h : String) : String :=
  if 1 ≤ endI then hashLoopAsc step 1 endI h else hashLoopDesc step 1 endI h

/-- Trip count of the loop of `generate_hash` when the bound is the integer
`endI`: counting up from 1 when `1 <= endI` gives `endI` rounds, otherwise
the loop counts down from 1 to `endI`, which is `2 - endI` rounds.
`jsHashLoop_eq_hashLoopN` below proves this against the literal loop. -/
def jsForRounds (endI : Int) : Nat :=
  if 1 ≤ endI then endI.toNat else (2 - endI).toNat

theorem hashLoopAsc_eq_hashLoopN (step : String → String) :
    ∀ (n : Nat) (endI i : Int) (h : String), endI + 1 - i = n →
      hashLoopAsc step i endI h = hashLoopN step n h := by
  intro n
  induction n with
  | zero =>
    intro endI i h hn
    rw [hashLoopAsc]
    rw [if_neg (by omega)]
    rfl
  | succ m ih =>
    intro endI i h hn
    rw [hashLoopAsc]
    rw [if_pos (by omega)]
    exact ih endI (i + 1) (step h) (by omega)

theorem hashLoopDesc_eq_hashLoopN (step : String → String) :
    ∀ (n : Nat) (endI i : Int) (h : String), i + 1 - endI = n →
      hashLoopDesc step i endI h = hashLoopN step n h := by
  intro n
  induction n with
  | zero =>
    intro endI i h hn
    rw [hashLoopDesc]
    rw [if_neg (by omega)]
    rfl
  | succ m ih =>
    intro endI i h hn
    rw [hashLoopDesc]
    rw [if_pos (by omega)]
    exact ih endI (i - 1) (step h) (by omega)

/-- The literal for-loop of `generate_hash` computes exactly
`jsForRounds endI` rounds. -/
theorem jsHashLoop_eq_hashLoopN (step : String → String) (endI : Int) (h : String) :
    jsHashLoop step endI h = hashLoopN step (jsForRounds endI) h := by
  unfold jsHashLoop jsForRounds
  by_cases hc : 1 ≤ endI
  · rw [if_pos hc, if_pos hc]
    exact hashLoopAsc_eq_hashLoopN step endI.toNat endI 1 h (by omega)
  · rw [if_neg hc, if_neg hc]
    exact hashLoopDesc_eq_hashLoopN step (2 - endI).toNat endI 1 h (by omega)

/-- Embedding of `generate_hash` (auth.ts lines 112 to 129) at a number-typed
`iterations` argument.  Throws when `algorithm` or `salt` is `null` or
`undefined`; `iterations || 1` turns 0 into 1; the digest is produced by the
for loop embedded as `hashLoopN step (jsForRounds it)` (see
`jsHashLoop_eq_hashLoopN`); the result is the four dollar-joined fields with
the reassigned `iterations` value printed.  The source wraps the two
reported argument values in single quote characters, elided here. -/
def generate_hash (hmac : Hmac) (algorithm salt : Option String)
    (iterations : Int) (password : String) : Except String String :=
  match algorithm, salt with
  | some alg, some s =>
    let it : Int := if iterations = 0 then 1 else iterations
    .ok (alg ++ "$" ++ s ++ "$" ++ toString it ++ "$" ++
      hashLoopN (hmac alg s) (jsForRounds it) password)
  | _, _ =>
    .error ("undefined arguments: algorithm=" ++ jsShow algorithm ++
      " salt=" ++ jsShow salt)

/-- Embedding of `generate_hash` at a string-typed `iterations` argument, as
called from `check_remember_me_cookie` with the third cookie field.  JS
semantics: `iterations || 1` replaces only the empty string by the number 1;
otherwise the loop bound stays a string and every comparison against it
coerces it with `Number`.  A non-numeric string gives `NaN`, all comparisons
are false, and the loop body never runs (digest = raw password).  The string
to number coercion is modelled with `String.toInt?` (decimal integers with
an optional leading minus sign; the further JS forms such as leading `+`,
blanks or fractions do not occur in cookie fields). -/
def generate_hashS (hmac : Hmac) (algorithm salt iterations password : String) :
    String :=
  if iterations = "" then
    algorithm ++ "$" ++ salt ++ "$" ++ "1" ++ "$" ++
      hashLoopN (hmac algorithm salt) 1 password
  else
    match iterations.toInt? with
    | some n =>
      algorithm ++ "$" ++ salt ++ "$" ++ iterations ++ "$" ++
        hashLoopN (hmac algorithm salt) (jsForRounds n) password
    | none => algorithm ++ "$" ++ salt ++ "$" ++ iterations ++ "$" ++ password

/-- Modelled from the spec: `password_hash` (auth.ts lines 131 to 138) calls
`generate` of the vendored password-hash library, which is not under `src/`;
the source comments that `generate_hash` is a copy of the private hashing
function of that library.  It hashes with algorithm sha512, 1000 iterations
and a fresh random salt (here supplied by the caller from the `Store`
oracle), and formats the result exactly like `generate_hash`. -/
def password_hash (hmac : Hmac) (salt password : String) : String :=
  "sha512" ++ "$" ++ salt ++ "$" ++ "1000" ++ "$" ++
    hashLoopN (hmac "sha512" salt) 1000 password

/-- Modelled from the spec: the hardcoded default support email `HELP_EMAIL`
imported from smc-util/theme, which is not under `src/`; the spec calls it
the hardcoded default for the banned-user message. -/
def HELP_EMAIL : String := "help@cocalc.com"

/-- The payload stored with a remember-me record; the source stores the full
`message.signed_in` object, of which the pipeline reads only `account_id`
(auth.ts line 640). -/
structure SignedInMesg where
  account_id : String
deriving Repr, DecidableEq

/-- Oracle for the database interface consumed by `passport_login`.  Each
field gives the value that the corresponding `callback2` call resolves with.
`create_passport_result` is an `Except` so that the datastore rejection of a
racing link creation can be injected; the remaining calls are modelled as
succeeding.  `session_salt` and `session_id` are the fresh random salt of
the password-hash library and the `uuid.v4()` session id used by
`handle_new_sign_in`. -/
structure Store where
  get_remember_me : String → Option SignedInMesg
  passport_exists : String → String → Option String
  create_passport_result : Except String Unit
  account_exists : String → Option String
  create_account_id : String
  api_key_action : Option String → String → Option String
  is_banned_user : Option String → Bool
  help_email : Option String
  session_salt : String
  session_id : String

/-- The normalized login assertion handed to `passport_login` (interface
`PassportLogin` of auth.ts, minus the express request and response
objects). -/
structure PassportLogin where
  strategy : String
  profile : String
  id : String
  first_name : Option String := none
  last_name : Option String := none
  full_name : Option String := none
  emails : Option (List String) := none
deriving Repr, DecidableEq

/-- The `locals` bag threaded through the pipeline (interface
`PassportLoginLocals` of auth.ts; the `dbg` and `cookies` handles are not
data). -/
structure Locals where
  account_id : Option String
  email_address : Option String
  new_account_created : Bool
  has_valid_remember_me : Bool
  target : String
  remember_me_cookie : Option String
  get_api_key : Option String
  action : Option String
  api_key : Option String
deriving Repr, DecidableEq

/-- Observable side effects of one reconciliation attempt, in execution
order: datastore writes, fire-and-forget logging, and response cookies. -/
inductive Effect where
  | deleteApiKeyCookie : Effect
  | createPassport (account_id strategy id : String) (email : Option String)
      (first_name last_name : String) : Effect
  | createAccount (account_id first_name last_name strategy id : String)
      (email : Option String) : Effect
  | accountCreationActions (email account_id : String) : Effect
  | logCreateAccount (account_id : String) (email : Option String) : Effect
  | recordSignIn (remember_me : Bool) (email : Option String)
      (account_id : Option String) : Effect
  | apiKeyAction (account_id : Option String) (action : String) : Effect
  | saveRememberMe (account_id hash : String) (ttl : Nat) : Effect
  | setRememberMeCookie (value : String) (maxAge : Nat) : Effect
deriving Repr, DecidableEq

/-- JS `name.lastIndexOf(" ")` as an optional character index (`-1` becomes
`none`). -/
def lastSpaceIndex (s : String) : Option Nat :=
  (s.toList.reverse.findIdx? (fun c => c = ' ')).map
    (fun j => s.toList.length - 1 - j)

/-- The full-name fallback of `passport_login` (auth.ts lines 553 to 567):
with only `full_name` given, the suffix after the last space is the last
name and the trimmed prefix is the first name; without a space the whole
name is the last name and the first name is empty. -/
def split_full_name (name : String) : String × String :=
  match lastSpaceIndex name with
  | none => ("", name)
  | some i =>
    ((String.mk (name.toList.take i)).trim, (String.mk (name.toList.drop i)).trim)

/-- Input normalization done at the top of `passport_login` (auth.ts lines
553 to 584): derive first and last name from `full_name` when both are
absent, default missing names to `""`, and keep only the valid emails,
lowercased.  `is_valid_email_address` lives in smc-util/misc, which is not
under `src/`, and is therefore an abstract predicate parameter. -/
def normalize_opts (valid_email : String → Bool) (opts : PassportLogin) :
    PassportLogin :=
  let names : Option String × Option String :=
    match opts.full_name, opts.first_name, opts.last_name with
    | some name, none, none =>
      let p := split_full_name name
      (some p.1, some p.2)
    | _, f, l => (f, l)
  { opts with
    first_name := some (names.1.getD "")
    last_name := some (names.2.getD "")
    emails := opts.emails.map (fun es => (es.filter valid_email).map String.toLower) }

/-- Step 1, `check_remember_me_cookie` (auth.ts lines 614 to 646).  A falsy
cookie is skipped.  A cookie that does not split into exactly 4 dollar
fields throws.  The recomputed hash keys a remember-me lookup: a hit marks
the caller as authenticated, a miss throws.  The source guards
`generate_hash` with a try/catch under which `hash` stays undefined; with
the total `Hmac` parameter that branch cannot fire, so `hash` is always
defined here. -/
def check_remember_me_cookie (hmac : Hmac) (st : Store) (l : Locals) :
    Except String Locals :=
  if !(truthyS l.remember_me_cookie) then .ok l
  else
    let value := l.remember_me_cookie.getD ""
    let x := jsSplit '$' value
    if x.length ≠ 4 then .error "badly formatted remember_me cookie"
    else
      let hash := generate_hashS hmac (x.getD 0 "") (x.getD 1 "")
        (x.getD 2 "") (x.getD 3 "")
      match st.get_remember_me hash with
      | some m =>
        .ok { l with account_id := some m.account_id, has_valid_remember_me := true }
      | none => .error "no valid remember_me token"

/-- Step 2, `check_passport_exists` (auth.ts lines 648 to 699).  Look up the
(strategy, id) link.  Not found with an authenticated caller: create the
link for that account (a datastore rejection of the creation propagates).
Found while authenticated as a different account: throw the conflict error.
Found while not authenticated: sign the linked account in by storing its id
in the locals. -/
def check_passport_exists (st : Store) (opts : PassportLogin) (l : Locals) :
    Except String Locals × List Effect :=
  let _account_id := st.passport_exists opts.strategy opts.id
  if !(truthyS _account_id) && l.has_valid_remember_me && l.account_id.isSome then
    match st.create_passport_result with
    | .ok _ =>
      (.ok l, [Effect.createPassport (l.account_id.getD "") opts.strategy opts.id
        (opts.emails.bind List.head?) (opts.first_name.getD "") (opts.last_name.getD "")])
    | .error e => (.error e, [])
  else if l.has_valid_remember_me && !(l.account_id == _account_id) then
    (.error ("Your " ++ opts.strategy ++
      " account is already attached to another CoCalc account.  First sign into that account and unlink " ++
      opts.strategy ++
      " in account settings if you want to instead associate it with this account."), [])
  else if l.has_valid_remember_me then (.ok l, [])
  else (.ok { l with account_id := _account_id }, [])

/-- One email probe of `check_existing_emails` (auth.ts lines 711 to 741).
If a match was already recorded the probe is a no-op; otherwise it asks the
datastore for an account with this email.  A falsy answer throws
`check_email: no _account_id`; a truthy answer records the match and throws
the email-already-registered error. -/
def check_email_probe (st : Store) (strategy : String) (l : Locals)
    (email : String) : Except String Locals :=
  if truthyS l.account_id then .ok l
  else
    let _account_id := st.account_exists email.toLower
    if truthyS l.account_id then .ok l
    else if !(truthyS _account_id) then .error "check_email: no _account_id"
    else
      .error ("There is already an account with email address " ++
        email.toLower ++
        "; please sign in using that email account, then link " ++ strategy ++
        " to it in account settings.")

/-- The probes of `check_existing_emails`, run in email order.  The source
issues them concurrently and `Promise.all` fails with the earliest
rejection; the arrival order is modelled as the list order.  Every completed
probe either throws or leaves the locals unchanged, so the choice of
schedule only selects which error wins, never whether the step succeeds. -/
def check_emails_list (st : Store) (strategy : String) :
    Locals → List String → Except String Locals
  | l, [] => .ok l
  | l, e :: rest =>
    match check_email_probe st strategy l e with
    | .error m => .error m
    | .ok l2 => check_emails_list st strategy l2 rest

/-- Step 3, `check_existing_emails` (auth.ts lines 701 to 744): only runs
when no account is resolved yet and the assertion carries an email list. -/
def check_existing_emails (st : Store) (opts : PassportLogin) (l : Locals) :
    Except String Locals :=
  if !(truthyS l.account_id) && !opts.emails.isNone then
    check_emails_list st opts.strategy l (opts.emails.getD [])
  else .ok l

/-- Step 4, `maybe_create_account` (auth.ts lines 746 to 781) with the
helper `create_account` (lines 140 to 149): when no account is resolved,
take the first email (if any) as the address of the new account, create the
account, run the account-creation actions when an address is present, and
log the creation fire-and-forget. -/
def maybe_create_account (st : Store) (opts : PassportLogin) (l : Locals) :
    Except String Locals × List Effect :=
  if truthyS l.account_id then (.ok l, [])
  else
    let email : Option String :=
      match opts.emails with
      | some es => es.head?
      | none => l.email_address
    let aid := st.create_account_id
    let l2 := { l with
      email_address := email
      account_id := some aid
      new_account_created := true }
    (.ok l2,
      [Effect.createAccount aid (opts.first_name.getD "") (opts.last_name.getD "")
        opts.strategy opts.id email] ++
      (match email with
       | some e => [Effect.accountCreationActions e aid]
       | none => []) ++
      [Effect.logCreateAccount aid email])

/-- Step 5, `maybe_record_sign_in` (auth.ts lines 783 to 799): for an
existing account, log the sign-in fire-and-forget. -/
def maybe_record_sign_in (l : Locals) : Except String Locals × List Effect :=
  if !l.new_account_created then
    (.ok l, [Effect.recordSignIn l.has_valid_remember_me l.email_address l.account_id])
  else (.ok l, [])

/-- Step 6, `maybe_provision_api_key` (auth.ts lines 801 to 836): only when
the api-key request cookie was present.  A fresh account regenerates, an
existing one fetches; a falsy first answer forces a second, regenerating
call; the redirect target then carries the key. -/
def maybe_provision_api_key (st : Store) (l : Locals) :
    Except String Locals × List Effect :=
  if !(truthyS l.get_api_key) then (.ok l, [])
  else
    let action := if l.new_account_created then "regenerate" else "get"
    let k1 := st.api_key_action l.account_id action
    let res : Option String × List Effect :=
      if !(truthyS k1) then
        (st.api_key_action l.account_id "regenerate",
          [Effect.apiKeyAction l.account_id action,
           Effect.apiKeyAction l.account_id "regenerate"])
      else (k1, [Effect.apiKeyAction l.account_id action])
    (.ok { l with
        action := some action
        api_key := res.1
        target := "https://authenticated?api_key=" ++ jsShow res.1 },
      res.2)

/-- Step 7, `is_user_banned` (auth.ts lines 883 to 897): a banned account
throws the BANNED message, whose contact address is the help email from the
server settings with the hardcoded `HELP_EMAIL` fallback. -/
def is_user_banned (st : Store) (account_id email_address : Option String) :
    Except String Bool :=
  if st.is_banned_user account_id then
    .error ("User (account_id=" ++ jsShow account_id ++ ", email_address=" ++
      jsShow email_address ++
      ") is BANNED. If this is a mistake, please contact " ++
      jsOr st.help_email HELP_EMAIL ++ ".")
  else .ok false

/-- Step 8, `handle_new_sign_in` (auth.ts lines 838 to 881): skipped for a
caller already authenticated by remember-me.  Otherwise hash a fresh session
id, store the remember-me record under the hash for 30 days, and set the
cookie value built from the first three fields of the hash joined with the
raw session id. -/
def handle_new_sign_in (hmac : Hmac) (st : Store) (l : Locals) :
    Except String Locals × List Effect :=
  if l.has_valid_remember_me then (.ok l, [])
  else
    match l.account_id with
    | none => (.error "locals.account_id is null", [])
    | some aid =>
      let hash_session_id := password_hash hmac st.session_salt st.session_id
      let x := jsSplit '$' hash_session_id
      let remember_me_value :=
        jsJoin '$' [x.getD 0 "", x.getD 1 "", x.getD 2 "", st.session_id]
      let ttl : Nat := 24 * 3600 * 30
      (.ok l,
        [Effect.saveRememberMe aid hash_session_id ttl,
         Effect.setRememberMeCookie remember_me_value (ttl * 1000)])

/-- Sequencing of one pipeline step inside the try block of `passport_login`:
a step runs only while no earlier step has thrown, and its effects are
appended to the trace.  Effects already performed stay in the trace when a
later step throws. -/
def run_step (acc : Except String Locals × List Effect)
    (f : Locals → Except String Locals × List Effect) :
    Except String Locals × List Effect :=
  match acc with
  | (.error e, es) => (.error e, es)
  | (.ok l, es) =>
    let r := f l
    (r.1, es ++ r.2)

/-- The locals as initialized at the top of `passport_login` (auth.ts lines
528 to 540), from the base url and the two request cookies. -/
def initialLocals (base_url : String) (cookie gak : Option String) : Locals :=
  { account_id := none
    email_address := none
    new_account_created := false
    has_valid_remember_me := false
    target := base_url ++ "/app#login"
    remember_me_cookie := cookie
    get_api_key := gak
    action := none
    api_key := none }

/-- The pipeline of `passport_login` (auth.ts lines 506 to 612) up to and
including `maybe_provision_api_key`, i.e. everything the source runs before
the ban check: input normalization, the immediate deletion of the api-key
request cookie when present, then steps 1 to 6 in source order. -/
def run_pre_ban (hmac : Hmac) (valid_email : String → Bool) (st : Store)
    (opts0 : PassportLogin) (base_url : String) (cookie gak : Option String) :
    Except String Locals × List Effect :=
  let opts := normalize_opts valid_email opts0
  let acc0 : Except String Locals × List Effect :=
    (.ok (initialLocals base_url cookie gak),
     if truthyS gak then [Effect.deleteApiKeyCookie] else [])
  let a1 := run_step acc0 (fun l => (check_remember_me_cookie hmac st l, []))
  let a2 := run_step a1 (fun l => check_passport_exists st opts l)
  let a3 := run_step a2 (fun l => (check_existing_emails st opts l, []))
  let a4 := run_step a3 (fun l => maybe_create_account st opts l)
  let a5 := run_step a4 (fun l => maybe_record_sign_in l)
  run_step a5 (fun l => maybe_provision_api_key st l)

/-- The whole reconciliation attempt of `passport_login`: the pre-ban
pipeline, then `is_user_banned`, then `handle_new_sign_in`.  The result is
the final locals (or the thrown error message) together with the trace of
performed effects. -/
def passport_login (hmac : Hmac) (valid_email : String → Bool) (st : Store)
    (opts0 : PassportLogin) (base_url : String) (cookie gak : Option String) :
    Except String Locals × List Effect :=
  let a6 := run_pre_ban hmac valid_email st opts0 base_url cookie gak
  let a7 := run_step a6
    (fun l => ((is_user_banned st l.account_id l.email_address).map (fun _ => l), []))
  run_step a7 (fun l => handle_new_sign_in hmac st l)

/-- The remember-me cookie value as assembled in `handle_new_sign_in`
(auth.ts line 867): the four fields joined with dollar signs. -/
def encode_remember_me (algorithm salt iterations secret : String) : String :=
  jsJoin '$' [algorithm, salt, iterations, secret]

/-- The cookie parsing of `check_remember_me_cookie` (auth.ts lines 621 to
624): split on the dollar sign; any field count other than 4 throws the
badly-formatted error. -/
def decode_remember_me (value : String) :
    Except String (String × String × String × String) :=
  let x := jsSplit '$' value
  if x.length = 4 then
    .ok (x.getD 0 "", x.getD 1 "", x.getD 2 "", x.getD 3 "")
  else .error "badly formatted remember_me cookie"

theorem jsSplit_jsJoin (sep : Char) (parts : List String)
    (hne : parts ≠ []) (hsep : ∀ p ∈ parts, sep ∉ p.toList) :
    jsSplit sep (jsJoin sep parts) = parts := by
  unfold jsSplit jsJoin
  have h1 : (String.mk (List.intercalate [sep] (parts.map String.toList))).toList
      = List.intercalate [sep] (parts.map String.toList) := rfl
  rw [h1]
  have h2 : (List.intercalate [sep] (parts.map String.toList)).splitOn sep
      = parts.map String.toList := by
    apply List.splitOn_intercalate
    · intro l hl
      rcases List.mem_map.mp hl with ⟨p, hp, rfl⟩
      exact hsep p hp
    · simpa using hne
  rw [h2, List.map_map]
  have h3 : (fun cs => String.mk cs) ∘ String.toList = id := by
    funext s
    rfl
  rw [h3, List.map_id]

theorem hashLoopN_eq_iterate (step : String → String) :
    ∀ (n : Nat) (h : String), hashLoopN step n h = step^[n] h := by
  intro n
  induction n with
  | zero => intro h; rfl
  | succ m ih =>
    intro h
    show hashLoopN step m (step h) = step^[m + 1] h
    rw [ih (step h), Function.iterate_succ_apply]

/-- Concrete hash primitive used by the closed evaluations: prepend one
character per round, so distinct round counts give distinct digests. -/
def hmacW : Hmac := fun _ _ d => "H" ++ d

/-- Concrete email validator used by the closed evaluations. -/
def validW : String → Bool := fun _ => true

/-- A store with no links, no accounts, no remember-me records, no bans. -/
def storeNoMatch : Store :=
  { get_remember_me := fun _ => none
    passport_exists := fun _ _ => none
    create_passport_result := .ok ()
    account_exists := fun _ => none
    create_account_id := "acct-new"
    api_key_action := fun _ _ => none
    is_banned_user := fun _ => false
    help_email := none
    session_salt := "SALT"
    session_id := "SID" }

/-- The assertion of the scenario in the spec: strategy github, external id
42, one email. -/
def optsGithub : PassportLogin :=
  { strategy := "github", profile := "P", id := "42", emails := some ["a@x.com"] }

/-- C1: the code fails on the no-match path.  At the exact input of the
claim (github/42 with email a@x.com, no existing link, no account with that
email, no remember-me cookie) the email probe finds no account and throws
`check_email: no _account_id`; the attempt ends with that error and an empty
effect trace, so no account is created and no remember-me cookie is issued,
instead of the Created outcome the claim describes.  The schedule of the
concurrent probes is irrelevant: with no email matching, every probe throws
this same error. -/
theorem C1_no_match_throws_instead_of_creating :
    passport_login hmacW validW storeNoMatch optsGithub "" none none =
      (.error "check_email: no _account_id", []) := by
  rfl

/-- C2: the code fails on the unresolvable-cookie path.  The presented
cookie sha512$s$1$sec splits into exactly 4 fields and its recomputed hash
resolves to no stored record, and `check_remember_me_cookie` then throws
`no valid remember_me token`: the attempt is aborted before link resolution,
email check or creation can run (empty effect trace), instead of being
treated as caller-not-authenticated as the claim states. -/
theorem C2_unresolvable_cookie_is_fatal :
    passport_login hmacW validW storeNoMatch optsGithub ""
      (some "sha512$s$1$sec") none =
      (.error "no valid remember_me token", []) := by
  rfl

/-- C7 counterexample: at iterations = -1 the claim predicts the digest of
max(-1, 1) = 1 round, but `generate_hash` runs the decompiled loop downward
from 1 to -1, i.e. 3 rounds.  The result differs from the 1-round digest
whether the printed iterations field is read as the original -1 or as the
treated-as-1 value. -/
theorem C7_counterexample_negative_iterations :
    generate_hash hmacW (some "a") (some "s") (-1) "p" = .ok "a$s$-1$HHHp" ∧
    ("a$s$-1$HHHp" : String) ≠ "a" ++ "$" ++ "s" ++ "$" ++ "-1" ++ "$" ++ hmacW "a" "s" "p" ∧
    ("a$s$-1$HHHp" : String) ≠ "a" ++ "$" ++ "s" ++ "$" ++ "1" ++ "$" ++ hmacW "a" "s" "p" := by
  refine ⟨rfl, by decide, by decide⟩

/-- C7 amended: for a present algorithm and salt, `generate_hash` returns
algorithm$salt$it$digest where `it` is `iterations` with 0 (the only falsy
number) replaced by 1, and the digest iterates the keyed hash `it` times
when `it ≥ 1` but `2 - iterations` times when `iterations < 0` (the loop
runs downward from 1 to `iterations`); so only iterations = 0 is treated as
1, negative values are not.  The call fails exactly when algorithm or salt
is absent. -/
theorem generate_hash_some_eq (hmac : Hmac) (alg s : String) (it : Int)
    (pw : String) :
    generate_hash hmac (some alg) (some s) it pw =
      .ok (alg ++ "$" ++ s ++ "$" ++ toString (if it = 0 then 1 else it) ++ "$" ++
        hashLoopN (hmac alg s) (jsForRounds (if it = 0 then 1 else it)) pw) := rfl

theorem C7_generate_hash_amended :
    (∀ (hmac : Hmac) (alg s : String) (it : Int) (pw : String),
      generate_hash hmac (some alg) (some s) it pw =
        .ok (alg ++ "$" ++ s ++ "$" ++ toString (if it = 0 then 1 else it) ++ "$" ++
          (hmac alg s)^[if 1 ≤ it then it.toNat else if it = 0 then 1 else (2 - it).toNat] pw)) ∧
    (∀ (hmac : Hmac) (s : Option String) (it : Int) (pw : String),
      generate_hash hmac none s it pw =
        .error ("undefined arguments: algorithm=" ++ "undefined" ++ " salt=" ++ jsShow s)) ∧
    (∀ (hmac : Hmac) (a : String) (it : Int) (pw : String),
      generate_hash hmac (some a) none it pw =
        .error ("undefined arguments: algorithm=" ++ a ++ " salt=" ++ "undefined")) := by
  refine ⟨?_, ?_, ?_⟩
  · intro hmac alg s it pw
    rw [generate_hash_some_eq, hashLoopN_eq_iterate]
    have hr : jsForRounds (if it = 0 then 1 else it) =
        (if 1 ≤ it then it.toNat else if it = 0 then 1 else (2 - it).toNat) := by
      unfold jsForRounds
      by_cases h0 : it = 0
      · simp [h0]
      · rw [if_neg h0]
        by_cases h1 : 1 ≤ it
        · rw [if_pos h1, if_pos h1]
        · rw [if_neg h1, if_neg h1, if_neg h0]
    rw [hr]
  · intro hmac s it pw
    rfl
  · intro hmac a it pw
    rfl

/-- C8 counterexample: the round trip fails when a field contains the
separator.  Encoding salt a$b produces a 5-field token, so decoding throws
the badly-formatted error instead of recovering the original fields. -/
theorem C8_counterexample_dollar_in_field :
    decode_remember_me (encode_remember_me "alg" "a$b" "10" "sec") =
      .error "badly formatted remember_me cookie" ∧
    (jsSplit '$' (encode_remember_me "alg" "a$b" "10" "sec")).length = 5 := by
  exact ⟨rfl, rfl⟩

/-- C8 amended: for fields that do not contain the dollar separator,
decoding the encoded token recovers exactly the original four fields; and
any token whose dollar-split has a field count other than 4 fails with the
badly-formatted (malformed token) error, which aborts the attempt. -/
theorem C8_token_roundtrip_amended :
    (∀ a s it sec : String,
      '$' ∉ a.toList → '$' ∉ s.toList → '$' ∉ it.toList → '$' ∉ sec.toList →
      decode_remember_me (encode_remember_me a s it sec) = .ok (a, s, it, sec)) ∧
    (∀ v : String, (jsSplit '$' v).length ≠ 4 →
      decode_remember_me v = .error "badly formatted remember_me cookie") := by
  constructor
  · intro a s it sec ha hs hit hsec
    unfold decode_remember_me encode_remember_me
    have hsplit : jsSplit '$' (jsJoin '$' [a, s, it, sec]) = [a, s, it, sec] := by
      apply jsSplit_jsJoin
      · simp
      · intro p hp
        simp only [List.mem_cons, List.not_mem_nil, or_false] at hp
        rcases hp with rfl | rfl | rfl | rfl <;> assumption
    rw [hsplit]
    rfl
  · intro v hv
    unfold decode_remember_me
    rw [if_neg hv]

/-- C8 witness: the round trip at concrete dollar-free fields, and the
malformed-token error at a concrete 3-field token. -/
theorem C8_token_roundtrip_witness :
    decode_remember_me (encode_remember_me "sha512" "salt" "1000" "sec") =
      .ok ("sha512", "salt", "1000", "sec") ∧
    decode_remember_me "a$b$c" = .error "badly formatted remember_me cookie" := by
  exact ⟨C8_token_roundtrip_amended.1 "sha512" "salt" "1000" "sec"
      (by decide) (by decide) (by decide) (by decide),
    C8_token_roundtrip_amended.2 "a$b$c" (by decide)⟩

/-- C10: when `maybe_create_account` actually creates (no account resolved
yet), a non-empty email list makes the new account carry exactly the first
email, which is also recorded in the locals (the Created outcome) and passed
to the account-creation actions; an absent or empty list creates the account
with no email address and skips the account-creation actions. -/
theorem C10_created_account_email (st : Store) (opts : PassportLogin)
    (l : Locals) (hacc : truthyS l.account_id = false) :
    (∀ (e : String) (rest : List String), opts.emails = some (e :: rest) →
      maybe_create_account st opts l =
        (.ok { l with
                email_address := some e
                account_id := some st.create_account_id
                new_account_created := true },
         [Effect.createAccount st.create_account_id (opts.first_name.getD "")
            (opts.last_name.getD "") opts.strategy opts.id (some e),
          Effect.accountCreationActions e st.create_account_id,
          Effect.logCreateAccount st.create_account_id (some e)])) ∧
    ((opts.emails = none ∨ opts.emails = some []) → l.email_address = none →
      maybe_create_account st opts l =
        (.ok { l with
                email_address := none
                account_id := some st.create_account_id
                new_account_created := true },
         [Effect.createAccount st.create_account_id (opts.first_name.getD "")
            (opts.last_name.getD "") opts.strategy opts.id none,
          Effect.logCreateAccount st.create_account_id none])) := by
  constructor
  · intro e rest he
    unfold maybe_create_account
    rw [hacc, he]
    rfl
  · intro hnone hemail
    unfold maybe_create_account
    rw [hacc]
    rcases hnone with h | h <;> rw [h, hemail] <;> rfl

/-- C10 witness: the creation branch at concrete inputs, once with a
non-empty email list and once with an absent one. -/
theorem C10_created_account_email_witness :
    maybe_create_account storeNoMatch optsGithub
        (initialLocals "" none none) =
      (.ok { initialLocals "" none none with
              email_address := some "a@x.com"
              account_id := some "acct-new"
              new_account_created := true },
       [Effect.createAccount "acct-new" "" "" "github" "42" (some "a@x.com"),
        Effect.accountCreationActions "a@x.com" "acct-new",
        Effect.logCreateAccount "acct-new" (some "a@x.com")]) ∧
    maybe_create_account storeNoMatch { optsGithub with emails := none }
        (initialLocals "" none none) =
      (.ok { initialLocals "" none none with
              email_address := none
              account_id := some "acct-new"
              new_account_created := true },
       [Effect.createAccount "acct-new" "" "" "github" "42" none,
        Effect.logCreateAccount "acct-new" none]) := by
  exact ⟨(C10_created_account_email storeNoMatch optsGithub
      (initialLocals "" none none) (by decide)).1 "a@x.com" [] rfl,
    (C10_created_account_email storeNoMatch { optsGithub with emails := none }
      (initialLocals "" none none) (by decide)).2 (Or.inl rfl) rfl⟩

theorem truthyS_none : truthyS none = false := rfl

theorem truthyS_some (s : String) : truthyS (some s) = !(s == "") := rfl

theorem run_step_ok (l : Locals) (es : List Effect)
    (f : Locals → Except String Locals × List Effect) :
    run_step (.ok l, es) f = ((f l).1, es ++ (f l).2) := rfl

theorem run_step_error (e : String) (es : List Effect)
    (f : Locals → Except String Locals × List Effect) :
    run_step (.error e, es) f = (.error e, es) := rfl

theorem normalize_opts_strategy (ve : String → Bool) (o : PassportLogin) :
    (normalize_opts ve o).strategy = o.strategy := rfl

theorem normalize_opts_id (ve : String → Bool) (o : PassportLogin) :
    (normalize_opts ve o).id = o.id := rfl

theorem check_remember_me_skip (hmac : Hmac) (st : Store) (l : Locals)
    (hc : truthyS l.remember_me_cookie = false) :
    check_remember_me_cookie hmac st l = .ok l := by
  unfold check_remember_me_cookie
  rw [hc]
  rfl

theorem check_remember_me_resolves (hmac : Hmac) (st : Store) (l : Locals)
    (v a s it sec : String) (m : SignedInMesg)
    (hc : l.remember_me_cookie = some v) (hv : v ≠ "")
    (hsplit : jsSplit '$' v = [a, s, it, sec])
    (hrm : st.get_remember_me (generate_hashS hmac a s it sec) = some m) :
    check_remember_me_cookie hmac st l =
      .ok { l with account_id := some m.account_id, has_valid_remember_me := true } := by
  unfold check_remember_me_cookie
  rw [hc]
  have ht : truthyS (some v) = true := by simp [truthyS, hv]
  rw [ht]
  simp only [Bool.not_true, Bool.false_eq_true, if_false, Option.getD_some]
  rw [hsplit]
  rw [if_neg (show ¬([a, s, it, sec].length ≠ 4) by simp)]
  simp only [List.getD_cons_zero, List.getD_cons_succ]
  rw [hrm]

theorem check_passport_found_not_auth (st : Store) (opts : PassportLogin)
    (l : Locals) (A : String)
    (hpe : st.passport_exists opts.strategy opts.id = some A) (hA : A ≠ "")
    (hval : l.has_valid_remember_me = false) :
    check_passport_exists st opts l = (.ok { l with account_id := some A }, []) := by
  unfold check_passport_exists
  have ht : truthyS (some A) = true := by simp [truthyS, hA]
  simp only [hpe, hval, ht, Bool.not_true, Bool.false_and, Bool.and_false,
    Bool.false_eq_true, if_false]

theorem check_passport_conflict (st : Store) (opts : PassportLogin)
    (l : Locals) (A B : String)
    (hpe : st.passport_exists opts.strategy opts.id = some A) (hA : A ≠ "")
    (hval : l.has_valid_remember_me = true) (hacc : l.account_id = some B)
    (hBA : B ≠ A) :
    check_passport_exists st opts l =
      (.error ("Your " ++ opts.strategy ++
        " account is already attached to another CoCalc account.  First sign into that account and unlink " ++
        opts.strategy ++
        " in account settings if you want to instead associate it with this account."), []) := by
  unfold check_passport_exists
  have ht : truthyS (some A) = true := by simp [truthyS, hA]
  have hne : (some B == some A) = false := by simp [hBA]
  simp only [hpe, hval, hacc, ht, hne, Bool.not_true, Bool.false_and,
    Bool.false_eq_true, if_false, Bool.not_false, Bool.true_and, if_true]

theorem check_passport_create_link_error (st : Store) (opts : PassportLogin)
    (l : Locals) (e : String)
    (hpe : st.passport_exists opts.strategy opts.id = none)
    (hval : l.has_valid_remember_me = true) (hacc : l.account_id.isSome = true)
    (hcp : st.create_passport_result = .error e) :
    check_passport_exists st opts l = (.error e, []) := by
  unfold check_passport_exists
  rw [hpe, hval, hacc, hcp]
  rfl

theorem check_existing_emails_resolved (st : Store) (opts : PassportLogin)
    (l : Locals) (hacc : truthyS l.account_id = true) :
    check_existing_emails st opts l = .ok l := by
  unfold check_existing_emails
  rw [hacc]
  rfl

theorem maybe_create_account_skip (st : Store) (opts : PassportLogin)
    (l : Locals) (hacc : truthyS l.account_id = true) :
    maybe_create_account st opts l = (.ok l, []) := by
  unfold maybe_create_account
  rw [hacc]
  rfl

theorem maybe_record_sign_in_existing (l : Locals)
    (h : l.new_account_created = false) :
    maybe_record_sign_in l =
      (.ok l, [Effect.recordSignIn l.has_valid_remember_me l.email_address l.account_id]) := by
  unfold maybe_record_sign_in
  rw [h]
  rfl

theorem maybe_provision_api_key_skip (st : Store) (l : Locals)
    (h : truthyS l.get_api_key = false) :
    maybe_provision_api_key st l = (.ok l, []) := by
  unfold maybe_provision_api_key
  rw [h]
  rfl

theorem maybe_provision_api_key_get_then_regen (st : Store) (l : Locals)
    (k : String)
    (hgak : truthyS l.get_api_key = true) (hnew : l.new_account_created = false)
    (hget : st.api_key_action l.account_id "get" = none)
    (hregen : st.api_key_action l.account_id "regenerate" = some k) :
    maybe_provision_api_key st l =
      (.ok { l with
          action := some "get"
          api_key := some k
          target := "https://authenticated?api_key=" ++ k },
        [Effect.apiKeyAction l.account_id "get",
         Effect.apiKeyAction l.account_id "regenerate"]) := by
  unfold maybe_provision_api_key
  simp only [hgak, hnew, hget, hregen, truthyS_none, Bool.not_true,
    Bool.not_false, Bool.false_eq_true, if_false, eq_self_iff_true, if_true,
    jsShow]

theorem is_user_banned_ok (st : Store) (a em : Option String)
    (h : st.is_banned_user a = false) :
    is_user_banned st a em = .ok false := by
  unfold is_user_banned
  rw [h]
  rfl

theorem is_user_banned_throws (st : Store) (a em : Option String)
    (h : st.is_banned_user a = true) :
    is_user_banned st a em =
      .error ("User (account_id=" ++ jsShow a ++ ", email_address=" ++
        jsShow em ++ ") is BANNED. If this is a mistake, please contact " ++
        jsOr st.help_email HELP_EMAIL ++ ".") := by
  unfold is_user_banned
  rw [h]
  rfl

theorem handle_new_sign_in_runs (hmac : Hmac) (st : Store) (l : Locals)
    (aid : String) (hval : l.has_valid_remember_me = false)
    (hacc : l.account_id = some aid) :
    handle_new_sign_in hmac st l =
      (.ok l,
        [Effect.saveRememberMe aid (password_hash hmac st.session_salt st.session_id)
          (24 * 3600 * 30),
         Effect.setRememberMeCookie
          (jsJoin '$' [(jsSplit '$' (password_hash hmac st.session_salt st.session_id)).getD 0 "",
            (jsSplit '$' (password_hash hmac st.session_salt st.session_id)).getD 1 "",
            (jsSplit '$' (password_hash hmac st.session_salt st.session_id)).getD 2 "",
            st.session_id]) (24 * 3600 * 30 * 1000)]) := by
  unfold handle_new_sign_in
  rw [hval, hacc]
  rfl

theorem run_step_eff (es : List Effect)
    (g : Locals → Except String Locals × List Effect) (l : Locals)
    (r : Except String Locals) (es2 : List Effect) (h : g l = (r, es2)) :
    run_step (.ok l, es) g = (r, es ++ es2) := by
  show ((g l).1, es ++ (g l).2) = (r, es ++ es2)
  rw [h]

theorem run_pre_ban_eq (hmac : Hmac) (ve : String → Bool) (st : Store)
    (opts0 : PassportLogin) (base_url : String) (cookie gak : Option String) :
    run_pre_ban hmac ve st opts0 base_url cookie gak =
      run_step (run_step (run_step (run_step (run_step (run_step
        (.ok (initialLocals base_url cookie gak),
          if truthyS gak then [Effect.deleteApiKeyCookie] else [])
        (fun l => (check_remember_me_cookie hmac st l, [])))
        (fun l => check_passport_exists st (normalize_opts ve opts0) l))
        (fun l => (check_existing_emails st (normalize_opts ve opts0) l, [])))
        (fun l => maybe_create_account st (normalize_opts ve opts0) l))
        (fun l => maybe_record_sign_in l))
        (fun l => maybe_provision_api_key st l) := rfl

theorem passport_login_eq (hmac : Hmac) (ve : String → Bool) (st : Store)
    (opts0 : PassportLogin) (base_url : String) (cookie gak : Option String) :
    passport_login hmac ve st opts0 base_url cookie gak =
      run_step (run_step (run_pre_ban hmac ve st opts0 base_url cookie gak)
        (fun l => ((is_user_banned st l.account_id l.email_address).map
          (fun _ => l), [])))
        (fun l => handle_new_sign_in hmac st l) := rfl

/-- C4 counterexample: with a live remember-me session for account B, a
fresh (strategy, externalId) and a datastore that rejects the link creation
with AlreadyExists, the attempt ends with that error propagated to the
caller and no further effects; the link is not re-resolved as found. -/
def storeC4 : Store :=
  { storeNoMatch with
    get_remember_me := fun _ => some { account_id := "B" }
    create_passport_result := .error "AlreadyExists" }

theorem C4_counterexample_no_recovery :
    passport_login hmacW validW storeC4 optsGithub "" (some "sha512$s$1$sec")
      none = (.error "AlreadyExists", []) := by
  rfl

/-- C4 amended: when the caller holds a live remember-me session, the
(strategy, externalId) link does not resolve, and the datastore rejects the
racing link creation with an error (such as AlreadyExists), the reconciler
does not recover: the error is propagated as the outcome of the attempt,
the remaining steps are skipped and no effect is performed. -/
theorem C4_already_exists_propagates (hmac : Hmac) (ve : String → Bool)
    (st : Store) (opts : PassportLogin) (base : String)
    (v a s it sec e : String) (m : SignedInMesg)
    (hv : v ≠ "") (hsplit : jsSplit '$' v = [a, s, it, sec])
    (hrm : st.get_remember_me (generate_hashS hmac a s it sec) = some m)
    (hpe : st.passport_exists opts.strategy opts.id = none)
    (hcp : st.create_passport_result = .error e) :
    passport_login hmac ve st opts base (some v) none = (.error e, []) := by
  rw [passport_login_eq, run_pre_ban_eq]
  have h1 : (fun l => (check_remember_me_cookie hmac st l, ([] : List Effect)))
      (initialLocals base (some v) none) =
      (.ok { initialLocals base (some v) none with
              account_id := some m.account_id
              has_valid_remember_me := true }, []) := by
    show (check_remember_me_cookie hmac st (initialLocals base (some v) none),
      ([] : List Effect)) = _
    rw [check_remember_me_resolves hmac st _ v a s it sec m rfl hv hsplit hrm]
  rw [run_step_eff _ _ _ _ _ h1]
  have hpe2 : st.passport_exists (normalize_opts ve opts).strategy
      (normalize_opts ve opts).id = none := by
    rw [normalize_opts_strategy, normalize_opts_id]
    exact hpe
  have h2 : (fun l => check_passport_exists st (normalize_opts ve opts) l)
      { initialLocals base (some v) none with
          account_id := some m.account_id
          has_valid_remember_me := true } = (.error e, []) := by
    show check_passport_exists st (normalize_opts ve opts) _ = _
    exact check_passport_create_link_error st _ _ e hpe2 rfl rfl hcp
  rw [run_step_eff _ _ _ _ _ h2]
  simp only [run_step_error]
  rfl

/-- C4 witness: the amended theorem applied at the concrete cookie
sha512$s$1$sec resolving to account B, with storeC4 rejecting the link
creation. -/
theorem C4_already_exists_propagates_witness :
    jsSplit '$' "sha512$s$1$sec" = ["sha512", "s", "1", "sec"] ∧
    storeC4.create_passport_result = .error "AlreadyExists" ∧
    passport_login hmacW validW storeC4 optsGithub "" (some "sha512$s$1$sec")
      none = (.error "AlreadyExists", []) := by
  refine ⟨by decide, rfl, ?_⟩
  exact C4_already_exists_propagates hmacW validW storeC4 optsGithub ""
    "sha512$s$1$sec" "sha512" "s" "1" "sec" "AlreadyExists"
    { account_id := "B" } (by decide) (by decide) rfl rfl rfl

/-- C5: when the (strategy, externalId) link resolves to account A and the
caller holds a live remember-me session as a different account B, the
attempt is rejected with the identity-conflict error; the effect trace is
empty, so the link is not re-bound (no link creation) and no remember-me
session is issued. -/
theorem C5_identity_conflict_rejected (hmac : Hmac) (ve : String → Bool)
    (st : Store) (opts : PassportLogin) (base : String)
    (v a s it sec A : String) (m : SignedInMesg)
    (hv : v ≠ "") (hsplit : jsSplit '$' v = [a, s, it, sec])
    (hrm : st.get_remember_me (generate_hashS hmac a s it sec) = some m)
    (hpe : st.passport_exists opts.strategy opts.id = some A) (hA : A ≠ "")
    (hBA : m.account_id ≠ A) :
    passport_login hmac ve st opts base (some v) none =
      (.error ("Your " ++ opts.strategy ++
        " account is already attached to another CoCalc account.  First sign into that account and unlink " ++
        opts.strategy ++
        " in account settings if you want to instead associate it with this account."), []) := by
  rw [passport_login_eq, run_pre_ban_eq]
  have h1 : (fun l => (check_remember_me_cookie hmac st l, ([] : List Effect)))
      (initialLocals base (some v) none) =
      (.ok { initialLocals base (some v) none with
              account_id := some m.account_id
              has_valid_remember_me := true }, []) := by
    show (check_remember_me_cookie hmac st (initialLocals base (some v) none),
      ([] : List Effect)) = _
    rw [check_remember_me_resolves hmac st _ v a s it sec m rfl hv hsplit hrm]
  rw [run_step_eff _ _ _ _ _ h1]
  have hpe2 : st.passport_exists (normalize_opts ve opts).strategy
      (normalize_opts ve opts).id = some A := by
    rw [normalize_opts_strategy, normalize_opts_id]
    exact hpe
  have h2 : (fun l => check_passport_exists st (normalize_opts ve opts) l)
      { initialLocals base (some v) none with
          account_id := some m.account_id
          has_valid_remember_me := true } =
      (.error ("Your " ++ (normalize_opts ve opts).strategy ++
        " account is already attached to another CoCalc account.  First sign into that account and unlink " ++
        (normalize_opts ve opts).strategy ++
        " in account settings if you want to instead associate it with this account."), []) := by
    show check_passport_exists st (normalize_opts ve opts) _ = _
    exact check_passport_conflict st _ _ A m.account_id hpe2 hA rfl rfl hBA
  rw [run_step_eff _ _ _ _ _ h2]
  simp only [run_step_error]
  rw [normalize_opts_strategy]
  rfl

/-- Store for the C5 witness: the link resolves to account A and every
remember-me lookup resolves to account B. -/
def storeC5 : Store :=
  { storeNoMatch with
    get_remember_me := fun _ => some { account_id := "B" }
    passport_exists := fun _ _ => some "A" }

/-- C5 witness: the theorem applied at a concrete live cookie for account B
and a github link bound to account A. -/
theorem C5_identity_conflict_rejected_witness :
    storeC5.passport_exists "github" "42" = some "A" ∧
    passport_login hmacW validW storeC5 optsGithub "" (some "sha512$s$1$sec")
      none =
      (.error ("Your " ++ "github" ++
        " account is already attached to another CoCalc account.  First sign into that account and unlink " ++
        "github" ++
        " in account settings if you want to instead associate it with this account."), []) := by
  refine ⟨rfl, ?_⟩
  exact C5_identity_conflict_rejected hmacW validW storeC5 optsGithub ""
    "sha512$s$1$sec" "sha512" "s" "1" "sec" "A" { account_id := "B" }
    (by decide) (by decide) rfl rfl (by decide) (by decide)

/-- Detects the account-creation write in an effect trace. -/
def creates_account : Effect → Bool
  | .createAccount .. => true
  | _ => false

/-- Detects the two session-issuance effects of `handle_new_sign_in`:
persisting the remember-me record and setting the response cookie. -/
def is_session_effect : Effect → Bool
  | .saveRememberMe .. => true
  | .setRememberMeCookie .. => true
  | _ => false

/-- The api-key step never fails and never changes the resolved account, the
creation flag or the remember-me flag; its effects are api-key actions
only. -/
theorem maybe_provision_api_key_exists (st : Store) (l : Locals) :
    ∃ (l2 : Locals) (es : List Effect),
      maybe_provision_api_key st l = (.ok l2, es) ∧
      l2.account_id = l.account_id ∧
      l2.new_account_created = l.new_account_created ∧
      l2.has_valid_remember_me = l.has_valid_remember_me ∧
      l2.email_address = l.email_address ∧
      ∀ e ∈ es, creates_account e = false ∧ is_session_effect e = false := by
  unfold maybe_provision_api_key
  split
  · refine ⟨l, [], rfl, rfl, rfl, rfl, rfl, ?_⟩
    intro e he
    simp at he
  · refine ⟨_, _, rfl, rfl, rfl, rfl, rfl, ?_⟩
    intro e he
    simp only [apply_ite Prod.snd] at he
    split at he <;> (try split at he) <;>
      simp only [List.mem_cons, List.not_mem_nil, or_false] at he <;>
      rcases he with rfl | rfl <;> exact ⟨rfl, rfl⟩

/-- The locals state after step 2 resolves the existing link to account A,
for an attempt that presented no remember-me cookie. -/
def linkedLocals (base : String) (gak : Option String) (A : String) : Locals :=
  { initialLocals base none gak with account_id := some A }

/-- C9: with a (strategy, externalId) link already bound to a non-empty,
non-banned account A and no remember-me cookie, reconciliation always
succeeds with the locals resolving exactly account A, no new account is
created (the creation flag stays false and no account-creation write is in
the trace), and no email-collision rejection occurs (the attempt does not
error).  The result is a function of the inputs, so every repetition yields
the same account. -/
theorem C9_relogin_signs_in_same_account (hmac : Hmac) (ve : String → Bool)
    (st : Store) (opts : PassportLogin) (base : String) (gak : Option String)
    (A : String)
    (hpe : st.passport_exists opts.strategy opts.id = some A) (hA : A ≠ "")
    (hb : st.is_banned_user (some A) = false) :
    ∃ (l : Locals) (es : List Effect),
      passport_login hmac ve st opts base none gak = (.ok l, es) ∧
      l.account_id = some A ∧ l.new_account_created = false ∧
      ∀ e ∈ es, creates_account e = false := by
  rw [passport_login_eq, run_pre_ban_eq]
  have h1 : (fun l => (check_remember_me_cookie hmac st l, ([] : List Effect)))
      (initialLocals base none gak) = (.ok (initialLocals base none gak), []) :=
    congrArg (fun r => (r, ([] : List Effect)))
      (check_remember_me_skip hmac st (initialLocals base none gak) rfl)
  rw [run_step_eff _ _ _ _ _ h1]
  have hpe2 : st.passport_exists (normalize_opts ve opts).strategy
      (normalize_opts ve opts).id = some A := by
    rw [normalize_opts_strategy, normalize_opts_id]
    exact hpe
  have h2 : (fun l => check_passport_exists st (normalize_opts ve opts) l)
      (initialLocals base none gak) = (.ok (linkedLocals base gak A), []) :=
    check_passport_found_not_auth st (normalize_opts ve opts)
      (initialLocals base none gak) A hpe2 hA rfl
  rw [run_step_eff _ _ _ _ _ h2]
  have htr : truthyS (linkedLocals base gak A).account_id = true := by
    simp [linkedLocals, initialLocals, truthyS, hA]
  have h3 : (fun l => (check_existing_emails st (normalize_opts ve opts) l,
      ([] : List Effect))) (linkedLocals base gak A) =
      (.ok (linkedLocals base gak A), []) :=
    congrArg (fun r => (r, ([] : List Effect)))
      (check_existing_emails_resolved st (normalize_opts ve opts)
        (linkedLocals base gak A) htr)
  rw [run_step_eff _ _ _ _ _ h3]
  have h4 : (fun l => maybe_create_account st (normalize_opts ve opts) l)
      (linkedLocals base gak A) = (.ok (linkedLocals base gak A), []) :=
    maybe_create_account_skip st (normalize_opts ve opts)
      (linkedLocals base gak A) htr
  rw [run_step_eff _ _ _ _ _ h4]
  have h5 : (fun l => maybe_record_sign_in l) (linkedLocals base gak A) =
      (.ok (linkedLocals base gak A), [Effect.recordSignIn false none (some A)]) :=
    maybe_record_sign_in_existing (linkedLocals base gak A) rfl
  rw [run_step_eff _ _ _ _ _ h5]
  obtain ⟨l2, es2, hapi, hacc2, hnew2, hval2, hem2, hes2⟩ :=
    maybe_provision_api_key_exists st (linkedLocals base gak A)
  have h6 : (fun l => maybe_provision_api_key st l) (linkedLocals base gak A) =
      (.ok l2, es2) := hapi
  rw [run_step_eff _ _ _ _ _ h6]
  have hacc2X : l2.account_id = some A := hacc2.trans rfl
  have hval2X : l2.has_valid_remember_me = false := hval2.trans rfl
  have hnew2X : l2.new_account_created = false := hnew2.trans rfl
  have h7 : (fun l => ((is_user_banned st l.account_id l.email_address).map
      (fun _ => l), ([] : List Effect))) l2 = (.ok l2, []) := by
    show ((is_user_banned st l2.account_id l2.email_address).map
      (fun _ => l2), ([] : List Effect)) = _
    rw [hacc2X, is_user_banned_ok st _ _ hb]
    rfl
  rw [run_step_eff _ _ _ _ _ h7]
  have h8 := handle_new_sign_in_runs hmac st l2 A hval2X hacc2X
  refine ⟨l2, _, run_step_eff _ _ l2 _ _ h8, hacc2X, hnew2X, ?_⟩
  intro e he
  simp only [List.mem_append, List.mem_cons, List.not_mem_nil, or_false] at he
  rcases he with ((he | rfl) | he) | (rfl | rfl)
  · split at he
    · simp only [List.mem_cons, List.not_mem_nil, or_false] at he
      subst he
      rfl
    · simp at he
  · rfl
  · exact (hes2 e he).1
  · rfl
  · rfl

theorem run_step_pred (P : Effect → Prop)
    (acc : Except String Locals × List Effect)
    (f : Locals → Except String Locals × List Effect)
    (hacc : ∀ e ∈ acc.2, P e) (hf : ∀ l, ∀ e ∈ (f l).2, P e) :
    ∀ e ∈ (run_step acc f).2, P e := by
  rcases acc with ⟨r, es⟩
  cases r with
  | error msg => exact hacc
  | ok l =>
    intro e he
    have he2 : e ∈ es ++ (f l).2 := he
    rcases List.mem_append.mp he2 with h | h
    · exact hacc e h
    · exact hf l e h

theorem check_passport_exists_effects (st : Store) (opts : PassportLogin)
    (l : Locals) :
    ∀ e ∈ (check_passport_exists st opts l).2, is_session_effect e = false := by
  intro e he
  unfold check_passport_exists at he
  cases hcp : st.create_passport_result <;>
    simp only [hcp, apply_ite Prod.snd] at he <;>
    split at he <;> (try split at he) <;> (try split at he) <;>
    first
      | (simp only [List.mem_cons, List.not_mem_nil, or_false] at he
         subst he
         rfl)
      | simp at he

theorem maybe_create_account_effects (st : Store) (opts : PassportLogin)
    (l : Locals) :
    ∀ e ∈ (maybe_create_account st opts l).2, is_session_effect e = false := by
  intro e he
  unfold maybe_create_account at he
  simp only [apply_ite Prod.snd] at he
  split at he
  · simp at he
  · simp only [List.append_assoc, List.mem_append, List.mem_cons,
      List.not_mem_nil, or_false] at he
    rcases he with rfl | he | rfl
    · rfl
    · split at he <;>
        simp only [List.mem_cons, List.not_mem_nil, or_false] at he
      subst he
      rfl
    · rfl

theorem maybe_record_sign_in_effects (l : Locals) :
    ∀ e ∈ (maybe_record_sign_in l).2, is_session_effect e = false := by
  intro e he
  unfold maybe_record_sign_in at he
  simp only [apply_ite Prod.snd] at he
  split at he <;>
    simp only [List.mem_cons, List.not_mem_nil, or_false] at he
  subst he
  rfl

theorem maybe_provision_api_key_effects (st : Store) (l : Locals) :
    ∀ e ∈ (maybe_provision_api_key st l).2, is_session_effect e = false := by
  obtain ⟨l2, es2, heq, _, _, _, _, hes⟩ := maybe_provision_api_key_exists st l
  intro e he
  rw [heq] at he
  exact (hes e he).2

/-- None of the effects performed before the ban check is a session-issuance
effect: the remember-me record and cookie are only ever written by
`handle_new_sign_in`, which runs after the ban check. -/
theorem run_pre_ban_no_session (hmac : Hmac) (ve : String → Bool) (st : Store)
    (opts : PassportLogin) (base : String) (cookie gak : Option String) :
    ∀ e ∈ (run_pre_ban hmac ve st opts base cookie gak).2,
      is_session_effect e = false := by
  rw [run_pre_ban_eq]
  apply run_step_pred
  · apply run_step_pred
    · apply run_step_pred
      · apply run_step_pred
        · apply run_step_pred
          · apply run_step_pred
            · intro e he
              simp only [] at he
              split at he <;>
                simp only [List.mem_cons, List.not_mem_nil, or_false] at he
              subst he
              rfl
            · intro l e he
              simp at he
          · intro l
            exact check_passport_exists_effects st _ l
        · intro l e he
          simp at he
      · intro l
        exact maybe_create_account_effects st _ l
    · intro l
      exact maybe_record_sign_in_effects l
  · intro l
    exact maybe_provision_api_key_effects st l

/-- C6: whenever the pipeline reaches the ban check without a rejection and
the resolved account is banned, the attempt ends with the BANNED rejection
whose contact address is the settings help email or the hardcoded fallback;
the effect trace is exactly the one accumulated before the ban check — any
account or link creation in it stands (nothing is rolled back) — and it
contains no session-issuance effect, so no remember-me record or cookie is
written. -/
theorem C6_ban_overrides_success (hmac : Hmac) (ve : String → Bool)
    (st : Store) (opts : PassportLogin) (base : String)
    (cookie gak : Option String) (l : Locals) (es : List Effect)
    (hpre : run_pre_ban hmac ve st opts base cookie gak = (.ok l, es))
    (hban : st.is_banned_user l.account_id = true) :
    passport_login hmac ve st opts base cookie gak =
      (.error ("User (account_id=" ++ jsShow l.account_id ++
        ", email_address=" ++ jsShow l.email_address ++
        ") is BANNED. If this is a mistake, please contact " ++
        jsOr st.help_email HELP_EMAIL ++ "."), es) ∧
    ∀ e ∈ es, is_session_effect e = false := by
  constructor
  · rw [passport_login_eq, hpre]
    have h7 : (fun l2 => ((is_user_banned st l2.account_id l2.email_address).map
        (fun _ => l2), ([] : List Effect))) l =
        (.error ("User (account_id=" ++ jsShow l.account_id ++
          ", email_address=" ++ jsShow l.email_address ++
          ") is BANNED. If this is a mistake, please contact " ++
          jsOr st.help_email HELP_EMAIL ++ "."), []) := by
      show ((is_user_banned st l.account_id l.email_address).map
        (fun _ => l), ([] : List Effect)) = _
      rw [is_user_banned_throws st _ _ hban]
      rfl
    rw [run_step_eff _ _ _ _ _ h7, run_step_error, List.append_nil]
  · intro e he
    have hall := run_pre_ban_no_session hmac ve st opts base cookie gak e
    rw [hpre] at hall
    exact hall he

/-- C9 witness: the theorem applied to a concrete store whose github/42 link
is bound to account A, with no remember-me cookie and no ban. -/
theorem C9_relogin_signs_in_same_account_witness :
    storeC5.passport_exists "github" "42" = some "A" ∧
    storeC5.is_banned_user (some "A") = false ∧
    ∃ (l : Locals) (es : List Effect),
      passport_login hmacW validW storeC5 optsGithub "" none none =
        (.ok l, es) ∧
      l.account_id = some "A" ∧ l.new_account_created = false ∧
      ∀ e ∈ es, creates_account e = false :=
  ⟨rfl, rfl, C9_relogin_signs_in_same_account hmacW validW storeC5 optsGithub
    "" none "A" rfl (by decide) rfl⟩

/-- Store for the C6 witness: the link resolves to account A, which is
banned; the settings provide no help email. -/
def storeC6 : Store :=
  { storeNoMatch with
    passport_exists := fun _ _ => some "A"
    is_banned_user := fun _ => true }

/-- C6 witness: the theorem applied to a banned account A reached through an
existing link; the BANNED rejection carries the hardcoded fallback address
and the pre-ban trace (one sign-in log) is unchanged and session-free. -/
theorem C6_ban_overrides_success_witness :
    run_pre_ban hmacW validW storeC6 optsGithub "" none none =
      (.ok (linkedLocals "" none "A"),
        [Effect.recordSignIn false none (some "A")]) ∧
    storeC6.is_banned_user (linkedLocals "" none "A").account_id = true ∧
    (passport_login hmacW validW storeC6 optsGithub "" none none =
      (.error ("User (account_id=" ++ "A" ++ ", email_address=" ++
        "undefined" ++ ") is BANNED. If this is a mistake, please contact " ++
        HELP_EMAIL ++ "."),
        [Effect.recordSignIn false none (some "A")]) ∧
     ∀ e ∈ [Effect.recordSignIn false none (some "A")],
       is_session_effect e = false) := by
  refine ⟨rfl, rfl, ?_⟩
  exact C6_ban_overrides_success hmacW validW storeC6 optsGithub "" none none
    (linkedLocals "" none "A") [Effect.recordSignIn false none (some "A")]
    rfl rfl

/-- Store for C3: the link resolves to banned account A, the api-key lookup
finds no existing key and the regenerating call returns KEY. -/
def storeC3 : Store :=
  { storeNoMatch with
    passport_exists := fun _ _ => some "A"
    is_banned_user := fun _ => true
    api_key_action := fun _ act =>
      if act == "regenerate" then some "KEY" else none }

/-- C3 counterexample: with an api-key request cookie and a banned account,
both api-key actions (the lookup and the forced regeneration) are performed
and appear in the trace even though the final outcome is the BANNED
rejection: the source runs `maybe_provision_api_key` before
`is_user_banned`, so the api-key exchange is not gated on the ban check
succeeding, contradicting the claimed ordering. -/
theorem C3_counterexample_api_key_for_banned :
    passport_login hmacW validW storeC3 optsGithub "" none (some "k") =
      (.error ("User (account_id=A, email_address=undefined) is BANNED. If this is a mistake, please contact help@cocalc.com."),
       [Effect.deleteApiKeyCookie,
        Effect.recordSignIn false none (some "A"),
        Effect.apiKeyAction (some "A") "get",
        Effect.apiKeyAction (some "A") "regenerate"]) := by
  rfl

/-- C3 amended: the api-key exchange runs after cookie validation, link
resolution, the email check, account resolution and sign-in recording
succeed, but before the ban check and before session issuance.  With an
api-key request cookie, an existing link to account A, no existing key and
a generating second call returning k: if A is banned, both api-key actions
are still performed and appear in the trace while the outcome is the BANNED
rejection; if A is not banned, the attempt succeeds with api key k — the
absence of an existing key forces generation rather than failure. -/
theorem C3_api_key_before_ban (hmac : Hmac) (ve : String → Bool) (st : Store)
    (opts : PassportLogin) (base : String) (g A k : String)
    (hg : g ≠ "") (hA : A ≠ "")
    (hpe : st.passport_exists opts.strategy opts.id = some A)
    (hget : st.api_key_action (some A) "get" = none)
    (hregen : st.api_key_action (some A) "regenerate" = some k) :
    (st.is_banned_user (some A) = true →
      passport_login hmac ve st opts base none (some g) =
        (.error ("User (account_id=" ++ A ++ ", email_address=" ++
          "undefined" ++ ") is BANNED. If this is a mistake, please contact " ++
          jsOr st.help_email HELP_EMAIL ++ "."),
         [Effect.deleteApiKeyCookie,
          Effect.recordSignIn false none (some A),
          Effect.apiKeyAction (some A) "get",
          Effect.apiKeyAction (some A) "regenerate"])) ∧
    (st.is_banned_user (some A) = false →
      ∃ (l : Locals) (es : List Effect),
        passport_login hmac ve st opts base none (some g) = (.ok l, es) ∧
        l.api_key = some k ∧
        Effect.apiKeyAction (some A) "get" ∈ es ∧
        Effect.apiKeyAction (some A) "regenerate" ∈ es) := by
  have hgt : truthyS (some g) = true := by simp [truthyS, hg]
  have hpre : run_pre_ban hmac ve st opts base none (some g) =
      (.ok { linkedLocals base (some g) A with
          action := some "get"
          api_key := some k
          target := "https://authenticated?api_key=" ++ k },
        [Effect.deleteApiKeyCookie,
         Effect.recordSignIn false none (some A),
         Effect.apiKeyAction (some A) "get",
         Effect.apiKeyAction (some A) "regenerate"]) := by
    rw [run_pre_ban_eq, hgt]
    have h1 : (fun l => (check_remember_me_cookie hmac st l, ([] : List Effect)))
        (initialLocals base none (some g)) =
        (.ok (initialLocals base none (some g)), []) :=
      congrArg (fun r => (r, ([] : List Effect)))
        (check_remember_me_skip hmac st (initialLocals base none (some g)) rfl)
    rw [run_step_eff _ _ _ _ _ h1]
    have hpe2 : st.passport_exists (normalize_opts ve opts).strategy
        (normalize_opts ve opts).id = some A := by
      rw [normalize_opts_strategy, normalize_opts_id]
      exact hpe
    have h2 : (fun l => check_passport_exists st (normalize_opts ve opts) l)
        (initialLocals base none (some g)) =
        (.ok (linkedLocals base (some g) A), []) :=
      check_passport_found_not_auth st (normalize_opts ve opts)
        (initialLocals base none (some g)) A hpe2 hA rfl
    rw [run_step_eff _ _ _ _ _ h2]
    have htr : truthyS (linkedLocals base (some g) A).account_id = true := by
      simp [linkedLocals, initialLocals, truthyS, hA]
    have h3 : (fun l => (check_existing_emails st (normalize_opts ve opts) l,
        ([] : List Effect))) (linkedLocals base (some g) A) =
        (.ok (linkedLocals base (some g) A), []) :=
      congrArg (fun r => (r, ([] : List Effect)))
        (check_existing_emails_resolved st (normalize_opts ve opts)
          (linkedLocals base (some g) A) htr)
    rw [run_step_eff _ _ _ _ _ h3]
    have h4 : (fun l => maybe_create_account st (normalize_opts ve opts) l)
        (linkedLocals base (some g) A) =
        (.ok (linkedLocals base (some g) A), []) :=
      maybe_create_account_skip st (normalize_opts ve opts)
        (linkedLocals base (some g) A) htr
    rw [run_step_eff _ _ _ _ _ h4]
    have h5 : (fun l => maybe_record_sign_in l) (linkedLocals base (some g) A) =
        (.ok (linkedLocals base (some g) A),
          [Effect.recordSignIn false none (some A)]) :=
      maybe_record_sign_in_existing (linkedLocals base (some g) A) rfl
    rw [run_step_eff _ _ _ _ _ h5]
    have h6 : (fun l => maybe_provision_api_key st l)
        (linkedLocals base (some g) A) =
        (.ok { linkedLocals base (some g) A with
            action := some "get"
            api_key := some k
            target := "https://authenticated?api_key=" ++ k },
          [Effect.apiKeyAction (some A) "get",
           Effect.apiKeyAction (some A) "regenerate"]) :=
      maybe_provision_api_key_get_then_regen st (linkedLocals base (some g) A)
        k hgt rfl hget hregen
    rw [run_step_eff _ _ _ _ _ h6]
    rfl
  constructor
  · intro hban
    rw [passport_login_eq, hpre]
    have h7 : (fun l2 => ((is_user_banned st l2.account_id l2.email_address).map
        (fun _ => l2), ([] : List Effect)))
        { linkedLocals base (some g) A with
            action := some "get"
            api_key := some k
            target := "https://authenticated?api_key=" ++ k } =
        (.error ("User (account_id=" ++ A ++ ", email_address=" ++
          "undefined" ++ ") is BANNED. If this is a mistake, please contact " ++
          jsOr st.help_email HELP_EMAIL ++ "."), []) := by
      show ((is_user_banned st (some A) none).map (fun _ => _),
        ([] : List Effect)) = _
      rw [is_user_banned_throws st _ _ hban]
      rfl
    rw [run_step_eff _ _ _ _ _ h7, run_step_error, List.append_nil]
  · intro hbanF
    rw [passport_login_eq, hpre]
    have h7 : (fun l2 => ((is_user_banned st l2.account_id l2.email_address).map
        (fun _ => l2), ([] : List Effect)))
        { linkedLocals base (some g) A with
            action := some "get"
            api_key := some k
            target := "https://authenticated?api_key=" ++ k } =
        (.ok { linkedLocals base (some g) A with
            action := some "get"
            api_key := some k
            target := "https://authenticated?api_key=" ++ k }, []) := by
      show ((is_user_banned st (some A) none).map (fun _ => _),
        ([] : List Effect)) = _
      rw [is_user_banned_ok st _ _ hbanF]
      rfl
    rw [run_step_eff _ _ _ _ _ h7]
    have h8 := handle_new_sign_in_runs hmac st
      { linkedLocals base (some g) A with
          action := some "get"
          api_key := some k
          target := "https://authenticated?api_key=" ++ k } A rfl rfl
    refine ⟨_, _, run_step_eff _ _ _ _ _ h8, rfl, ?_, ?_⟩
    · simp
    · simp

/-- C3 witness: the amended theorem applied to storeC3 (banned account A,
api-key cookie present, no existing key, regeneration returns KEY). -/
theorem C3_api_key_before_ban_witness :
    storeC3.api_key_action (some "A") "get" = none ∧
    storeC3.api_key_action (some "A") "regenerate" = some "KEY" ∧
    storeC3.is_banned_user (some "A") = true ∧
    passport_login hmacW validW storeC3 optsGithub "" none (some "k") =
      (.error ("User (account_id=" ++ "A" ++ ", email_address=" ++
        "undefined" ++ ") is BANNED. If this is a mistake, please contact " ++
        jsOr storeC3.help_email HELP_EMAIL ++ "."),
       [Effect.deleteApiKeyCookie,
        Effect.recordSignIn false none (some "A"),
        Effect.apiKeyAction (some "A") "get",
        Effect.apiKeyAction (some "A") "regenerate"]) := by
  refine ⟨rfl, rfl, rfl, ?_⟩
  exact (C3_api_key_before_ban hmacW validW storeC3 optsGithub "" "k" "A"
    "KEY" (by decide) (by decide) rfl rfl rfl).1 rfl
